import Mathlib

/-!
Verification development for the NexZen multi-agent repository.

The Python sources (`main_agent.py`, `gmail_agent.py`, `todo.py`) are shallowly
embedded below: pure computations become Lean functions, Python exceptions become
`Except String`, mutable attributes become explicitly threaded state, and the
external collaborators (the LLM reasoning backend, the fastmcp client transport,
`json.loads`) become oracle parameters.
-/

namespace NexZen

/-! ## JSON values

Parsed JSON payloads (`json.loads` output) and tool-call arguments.  JSON floats
are out of scope: the MCP servers in this repository only produce strings,
integers, booleans, nulls, arrays and objects. -/

inductive JVal where
  | str (s : String)
  | num (n : Int)
  | bool (b : Bool)
  | null
  | arr (items : List JVal)
  | obj (fields : List (String × JVal))
  deriving Repr

/-- A parsed top-level JSON object (a Python `dict`); the MCP servers always
serialize dicts, so `call_mcp_tool`'s parse step yields this shape. -/
abbrev JsonDict := List (String × JVal)

/-- Python truthiness (`if x:`) of a JSON value. -/
def pyTruthy : JVal → Bool
  | .str s => !(s == "")
  | .num n => !(n == 0)
  | .bool b => b
  | .null => false
  | .arr items => !items.isEmpty
  | .obj fields => !fields.isEmpty

mutual

/-- Python `repr` of a JSON value, as used by `str()` on containers.  The
repository never interpolates container values in any reachable path, so the
string-escaping details of `repr` are not modelled (strings are quoted
verbatim). -/
def pyRepr : JVal → String
  | .str s => "\x27" ++ s ++ "\x27"
  | .num n => toString n
  | .bool b => if b then "True" else "False"
  | .null => "None"
  | .arr items => "[" ++ pyReprElems items ++ "]"
  | .obj fields => "\x7b" ++ pyReprFields fields ++ "\x7d"

def pyReprElems : List JVal → String
  | [] => ""
  | [v] => pyRepr v
  | v :: rest => pyRepr v ++ ", " ++ pyReprElems rest

def pyReprFields : List (String × JVal) → String
  | [] => ""
  | [(k, v)] => "\x27" ++ k ++ "\x27: " ++ pyRepr v
  | (k, v) :: rest => "\x27" ++ k ++ "\x27: " ++ pyRepr v ++ ", " ++ pyReprFields rest

end

/-- Python `str()` of a JSON value, as interpolated by f-strings in the tool
adapters. -/
def pyStr : JVal → String
  | .str s => s
  | v => pyRepr v

/-- First binding for a key in a dict (Python dicts have unique keys). -/
def dictLookup (d : JsonDict) (k : String) : Option JVal :=
  (d.find? (fun p => p.1 == k)).map Prod.snd

/-- Python `d.get(k, dflt)` on a top-level result dict. -/
def dictGetD (d : JsonDict) (k : String) (dflt : JVal) : JVal :=
  (dictLookup d k).getD dflt

/-- Python run-time faults (KeyError, TypeError, AttributeError, raised
RuntimeError, transport exceptions, ...) are modelled as `Except.error` with a
descriptive message. -/
abbrev Py (α : Type) := Except String α

/-- Python `d[k]` on a top-level result dict: `KeyError` if absent. -/
def dictIndex (d : JsonDict) (k : String) : Py JVal :=
  match dictLookup d k with
  | some v => Except.ok v
  | none => Except.error ("KeyError: " ++ k)

/-- Python `v.get(k, dflt)` on a nested JSON value: `AttributeError` unless the
value is an object. -/
def jGetD (v : JVal) (k : String) (dflt : JVal) : Py JVal :=
  match v with
  | .obj fields => Except.ok (((fields.find? (fun p => p.1 == k)).map Prod.snd).getD dflt)
  | _ => Except.error ("AttributeError: get called on a non-dict value")

/-- Python `v[k]` on a nested JSON value. -/
def jIndex (v : JVal) (k : String) : Py JVal :=
  match v with
  | .obj fields =>
      match (fields.find? (fun p => p.1 == k)).map Prod.snd with
      | some w => Except.ok w
      | none => Except.error ("KeyError: " ++ k)
  | _ => Except.error "TypeError: value is not subscriptable by string"

/-- Python `v[:n]` slicing, defined for strings and lists. -/
def jSliceTo (v : JVal) (n : Nat) : Py JVal :=
  match v with
  | .str s => Except.ok (.str (s.take n))
  | .arr items => Except.ok (.arr (items.take n))
  | _ => Except.error "TypeError: value is not sliceable"

/-- Python `len(v)`, defined for strings, lists and dicts. -/
def pyLen (v : JVal) : Py Nat :=
  match v with
  | .str s => Except.ok s.length
  | .arr items => Except.ok items.length
  | .obj fields => Except.ok fields.length
  | _ => Except.error "TypeError: value has no len"

/-- Python iteration `for x in v` over a JSON value (characters of a string,
elements of a list, keys of a dict). -/
def jElems (v : JVal) : Py (List JVal) :=
  match v with
  | .str s => Except.ok (s.data.map (fun c => JVal.str (String.mk [c])))
  | .arr items => Except.ok items
  | .obj fields => Except.ok (fields.map (fun p => JVal.str p.1))
  | _ => Except.error "TypeError: value is not iterable"

/-- The strings of a joined sequence, failing at the first non-string element
(as Python `str.join` does). -/
def pyJoinStrs : List JVal → Py (List String)
  | [] => Except.ok []
  | x :: rest =>
      match x with
      | JVal.str s => do
          let l ← pyJoinStrs rest
          return s :: l
      | _ => Except.error "TypeError: sequence item is not a str"

/-- Python `sep.join(xs)` over a JSON value: every element must be a string. -/
def pyJoin (sep : String) (v : JVal) : Py String := do
  let items ← jElems v
  let strs ← pyJoinStrs items
  return String.intercalate sep strs

/-! ## Tool Invoker: `connect_mcp` and `call_mcp_tool`

The fastmcp transport, the remote server and `json.loads` are oracles bundled
into `McpEnv`.  A content item of a reply carries a `.text` field. -/

structure ContentItem where
  text : String
  deriving Repr, DecidableEq

structure McpEnv where
  /-- Outcome of one connection attempt (`Client(url)` + `__aenter__`). -/
  connectOutcome : Except String Unit
  /-- Outcome of `self.mcp_client.call_tool(tool_name, params)`:
  either a raised exception or a list of content items. -/
  call : String → List (String × JVal) → Except String (List ContentItem)
  /-- Outcome of `json.loads(text)`; the servers always serialize dicts. -/
  parse : String → Except String JsonDict

/-- `GmailMCPAgent.connect_mcp` (gmail_agent.py lines 82-97): does nothing when
already connected; otherwise performs one connection attempt, setting the
`connected` flag on success and re-raising as `RuntimeError` on failure.
Returns the new flag (or the raised error) and the number of connection
attempts performed. -/
def gmail_connect_mcp (env : McpEnv) (connected : Bool) : Except String Bool × Nat :=
  if !connected then
    match env.connectOutcome with
    | Except.ok _ => (Except.ok true, 1)
    | Except.error e => (Except.error ("Failed to initialize Gmail MCP server: " ++ e), 1)
  else (Except.ok connected, 0)

/-- `TodoMCPAgent.connect_mcp` (todo.py lines 79-96); identical control flow to
the Gmail variant, with a different `RuntimeError` message. -/
def todo_connect_mcp (env : McpEnv) (connected : Bool) : Except String Bool × Nat :=
  if !connected then
    match env.connectOutcome with
    | Except.ok _ => (Except.ok true, 1)
    | Except.error e => (Except.error ("Failed to initialize MCP server: " ++ e), 1)
  else (Except.ok connected, 0)

/-- Observable outcome of one `call_mcp_tool` invocation: the returned dict,
the agent's `connected` flag afterwards, and a trace of the connection
attempts, whether the remote tool call was issued, and which reply texts were
passed to `json.loads`. -/
structure McpCallResult where
  connected : Bool
  result : JsonDict
  connect_attempts : Nat
  tool_called : Bool
  parsed_texts : List String
  deriving Repr

/-- `GmailMCPAgent.call_mcp_tool` (gmail_agent.py lines 106-128).  Every
exception raised inside the body (connection failure, transport/tool failure,
JSON parse failure) is caught and turned into the dict
`{"error": "Error calling MCP tool <name>: <message>"}`; an empty reply list
becomes `{"error": "No result received from MCP server"}`; otherwise the first
content item's text is parsed and the parsed dict returned. -/
def gmail_call_mcp_tool (env : McpEnv) (connected : Bool) (tool_name : String)
    (params : Option (List (String × JVal))) : McpCallResult :=
  match (if connected then (Except.ok true, 0) else gmail_connect_mcp env connected) with
  | (Except.error e, n) =>
      { connected := false,
        result := [("error", JVal.str ("Error calling MCP tool " ++ tool_name ++ ": " ++ e))],
        connect_attempts := n, tool_called := false, parsed_texts := [] }
  | (Except.ok _, n) =>
      match env.call tool_name (params.getD []) with
      | Except.error e =>
          { connected := true,
            result := [("error", JVal.str ("Error calling MCP tool " ++ tool_name ++ ": " ++ e))],
            connect_attempts := n, tool_called := true, parsed_texts := [] }
      | Except.ok [] =>
          { connected := true,
            result := [("error", JVal.str "No result received from MCP server")],
            connect_attempts := n, tool_called := true, parsed_texts := [] }
      | Except.ok (item :: _) =>
          match env.parse item.text with
          | Except.error e =>
              { connected := true,
                result := [("error", JVal.str ("Error calling MCP tool " ++ tool_name ++ ": " ++ e))],
                connect_attempts := n, tool_called := true, parsed_texts := [item.text] }
          | Except.ok d =>
              { connected := true, result := d,
                connect_attempts := n, tool_called := true, parsed_texts := [item.text] }

/-- `TodoMCPAgent.call_mcp_tool` (todo.py lines 105-127); identical body to the
Gmail variant except that a connection failure surfaces the Todo
`connect_mcp`'s `RuntimeError` message. -/
def todo_call_mcp_tool (env : McpEnv) (connected : Bool) (tool_name : String)
    (params : Option (List (String × JVal))) : McpCallResult :=
  match (if connected then (Except.ok true, 0) else todo_connect_mcp env connected) with
  | (Except.error e, n) =>
      { connected := false,
        result := [("error", JVal.str ("Error calling MCP tool " ++ tool_name ++ ": " ++ e))],
        connect_attempts := n, tool_called := false, parsed_texts := [] }
  | (Except.ok _, n) =>
      match env.call tool_name (params.getD []) with
      | Except.error e =>
          { connected := true,
            result := [("error", JVal.str ("Error calling MCP tool " ++ tool_name ++ ": " ++ e))],
            connect_attempts := n, tool_called := true, parsed_texts := [] }
      | Except.ok [] =>
          { connected := true,
            result := [("error", JVal.str "No result received from MCP server")],
            connect_attempts := n, tool_called := true, parsed_texts := [] }
      | Except.ok (item :: _) =>
          match env.parse item.text with
          | Except.error e =>
              { connected := true,
                result := [("error", JVal.str ("Error calling MCP tool " ++ tool_name ++ ": " ++ e))],
                connect_attempts := n, tool_called := true, parsed_texts := [item.text] }
          | Except.ok d =>
              { connected := true, result := d,
                connect_attempts := n, tool_called := true, parsed_texts := [item.text] }

/-! ## Gmail Tool Adapters (gmail_agent.py, `setup_tools`, lines 130-403)

Each adapter calls `call_mcp_tool` and renders the returned dict into text.
The render step is modelled as a function of that dict (plus the adapter
arguments that are interpolated into the output). -/

/-- Python `v == "<literal>"` comparison of a JSON value with a string. -/
def jEqStr (v : JVal) (s : String) : Bool :=
  match v with
  | .str t => t == s
  | _ => false

/-- One iteration of the `list_messages` rendering loop (lines 154-164). -/
def list_messages_entry (i : Nat) (msg : JVal) : Py String := do
  let from_addr ← jSliceTo (← jGetD msg "from" (JVal.str "Unknown")) 30
  let subject ← jSliceTo (← jGetD msg "subject" (JVal.str "No Subject")) 50
  let date ← jSliceTo (← jGetD msg "date" (JVal.str "Unknown")) 20
  let labels ← pyJoin ", " (← jSliceTo (← jGetD msg "labelIds" (JVal.arr [])) 3)
  let idv ← jGetD msg "id" (JVal.str "Unknown")
  return toString i ++ ". From: " ++ pyStr from_addr ++ "\n" ++
    "   Subject: " ++ pyStr subject ++ "\n" ++
    "   Date: " ++ pyStr date ++ "\n" ++
    "   Labels: " ++ labels ++ "\n" ++
    "   ID: " ++ pyStr idv ++ "\n\n"

/-- `list_messages` rendering (lines 133-166). -/
def list_messages_render (query : String) (result : JsonDict) : Py String :=
  match dictLookup result "error" with
  | some e => Except.ok ("Error listing messages: " ++ pyStr e)
  | none =>
    let messages := dictGetD result "messages" (JVal.arr [])
    if !pyTruthy messages then
      Except.ok ("No messages found" ++ (if query != "" then " for query: " ++ query else "") ++ ".")
    else do
      let n ← pyLen messages
      let items ← jElems messages
      (items.enumFrom 1).foldlM
        (fun output p => do
          let e ← list_messages_entry p.1 p.2
          return output ++ e)
        ("Found " ++ toString n ++ " messages" ++
          (if query != "" then " for query: " ++ query else "") ++ ":\n\n")

/-- `get_message` rendering (lines 168-206). -/
def get_message_render (result : JsonDict) : Py String :=
  match dictLookup result "error" with
  | some e => Except.ok ("Error getting message: " ++ pyStr e)
  | none =>
    let message := dictGetD result "message" (JVal.obj [])
    if !pyTruthy message then
      Except.ok "Message not found."
    else do
      let fromv ← jGetD message "from" (JVal.str "Unknown")
      let tov ← jGetD message "to" (JVal.str "Unknown")
      let subject ← jGetD message "subject" (JVal.str "No Subject")
      let date ← jGetD message "date" (JVal.str "Unknown")
      let labels ← pyJoin ", " (← jGetD message "labelIds" (JVal.arr []))
      let base := "📧 Message Details:\n" ++
        "From: " ++ pyStr fromv ++ "\n" ++
        "To: " ++ pyStr tov ++ "\n" ++
        "Subject: " ++ pyStr subject ++ "\n" ++
        "Date: " ++ pyStr date ++ "\n" ++
        "Labels: " ++ labels ++ "\n"
      let ccFlag ← jGetD message "cc" JVal.null
      let withCc ←
        if pyTruthy ccFlag then do
          let cc ← jIndex message "cc"
          pure (base ++ "CC: " ++ pyStr cc ++ "\n")
        else pure base
      let body ← jGetD message "body" (JVal.str "")
      let withBody ←
        if pyTruthy body then do
          let b ← jSliceTo body 1000
          let blen ← pyLen body
          pure (withCc ++ "\n📝 Body:\n" ++ pyStr b ++
            (if blen > 1000 then "... (truncated)" else ""))
        else pure withCc
      let attachments ← jGetD message "attachments" (JVal.arr [])
      if pyTruthy attachments then do
        let n ← pyLen attachments
        let atts ← jElems attachments
        atts.foldlM
          (fun out att => do
            let fn ← jGetD att "filename" (JVal.str "Unknown")
            let mt ← jGetD att "mimeType" (JVal.str "Unknown type")
            return out ++ "  • " ++ pyStr fn ++ " (" ++ pyStr mt ++ ")\n")
          (withBody ++ "\n\n📎 Attachments (" ++ toString n ++ "):\n")
      else
        return withBody

/-- `search_messages` rendering (lines 208-235). -/
def search_messages_render (query : String) (result : JsonDict) : Py String :=
  match dictLookup result "error" with
  | some e => Except.ok ("Error searching messages: " ++ pyStr e)
  | none =>
    let messages := dictGetD result "messages" (JVal.arr [])
    if !pyTruthy messages then
      Except.ok ("No messages found for search query: " ++ query)
    else do
      let n ← pyLen messages
      let items ← jElems messages
      (items.enumFrom 1).foldlM
        (fun output p => do
          let subject ← jGetD p.2 "subject" (JVal.str "No Subject")
          let fromv ← jGetD p.2 "from" (JVal.str "Unknown")
          let date ← jGetD p.2 "date" (JVal.str "Unknown")
          let idv ← jGetD p.2 "id" (JVal.str "Unknown")
          return output ++ toString p.1 ++ ". " ++ pyStr subject ++ "\n" ++
            "   From: " ++ pyStr fromv ++ "\n" ++
            "   Date: " ++ pyStr date ++ "\n" ++
            "   ID: " ++ pyStr idv ++ "\n\n")
        ("🔍 Search Results (" ++ toString n ++ " messages) for: " ++ query ++ "\n\n")

/-- `send_message` rendering (lines 237-267); `to_addr` is the source's `to`
argument (`to` is reserved in Lean). -/
def send_message_render (to_addr subject : String) (result : JsonDict) : Py String :=
  match dictLookup result "error" with
  | some e => Except.ok ("Error sending message: " ++ pyStr e)
  | none =>
    if pyTruthy (dictGetD result "success" JVal.null) then
      let message_id := dictGetD result "messageId" (JVal.str "Unknown")
      Except.ok ("✅ Email sent successfully!\nTo: " ++ to_addr ++ "\nSubject: " ++ subject ++
        "\nMessage ID: " ++ pyStr message_id)
    else Except.ok "Failed to send email."

/-- `reply_to_message` rendering (lines 269-289). -/
def reply_to_message_render (message_id : String) (result : JsonDict) : Py String :=
  match dictLookup result "error" with
  | some e => Except.ok ("Error sending reply: " ++ pyStr e)
  | none =>
    if pyTruthy (dictGetD result "success" JVal.null) then
      let reply_id := dictGetD result "messageId" (JVal.str "Unknown")
      Except.ok ("✅ Reply sent successfully!\nOriginal Message ID: " ++ message_id ++
        "\nReply ID: " ++ pyStr reply_id)
    else Except.ok "Failed to send reply."

/-- `mark_message_as_read` rendering (lines 291-306). -/
def mark_message_as_read_render (message_id : String) (result : JsonDict) : Py String :=
  match dictLookup result "error" with
  | some e => Except.ok ("Error marking message as read: " ++ pyStr e)
  | none =>
    if pyTruthy (dictGetD result "success" JVal.null) then
      Except.ok ("✅ Message marked as read (ID: " ++ message_id ++ ")")
    else Except.ok "Failed to mark message as read."

/-- `mark_message_as_unread` rendering (lines 308-323). -/
def mark_message_as_unread_render (message_id : String) (result : JsonDict) : Py String :=
  match dictLookup result "error" with
  | some e => Except.ok ("Error marking message as unread: " ++ pyStr e)
  | none =>
    if pyTruthy (dictGetD result "success" JVal.null) then
      Except.ok ("✅ Message marked as unread (ID: " ++ message_id ++ ")")
    else Except.ok "Failed to mark message as unread."

/-- `add_label_to_message` rendering (lines 325-345). -/
def add_label_to_message_render (message_id label_id : String) (result : JsonDict) : Py String :=
  match dictLookup result "error" with
  | some e => Except.ok ("Error adding label: " ++ pyStr e)
  | none =>
    if pyTruthy (dictGetD result "success" JVal.null) then do
      let current_labels ← pyJoin ", " (dictGetD result "labelIds" (JVal.arr []))
      return "✅ Label \x27" ++ label_id ++ "\x27 added to message (ID: " ++ message_id ++
        ")\nCurrent labels: " ++ current_labels
    else Except.ok "Failed to add label."

/-- `remove_label_from_message` rendering (lines 347-367). -/
def remove_label_from_message_render (message_id label_id : String) (result : JsonDict) :
    Py String :=
  match dictLookup result "error" with
  | some e => Except.ok ("Error removing label: " ++ pyStr e)
  | none =>
    if pyTruthy (dictGetD result "success" JVal.null) then do
      let current_labels ← pyJoin ", " (dictGetD result "labelIds" (JVal.arr []))
      return "✅ Label \x27" ++ label_id ++ "\x27 removed from message (ID: " ++ message_id ++
        ")\nCurrent labels: " ++ current_labels
    else Except.ok "Failed to remove label."

/-- `list_labels` rendering (lines 369-392). -/
def list_labels_render (result : JsonDict) : Py String :=
  match dictLookup result "error" with
  | some e => Except.ok ("Error listing labels: " ++ pyStr e)
  | none =>
    let labels := dictGetD result "labels" (JVal.arr [])
    if !pyTruthy labels then
      Except.ok "No labels found."
    else do
      let n ← pyLen labels
      let items ← jElems labels
      items.foldlM
        (fun output label => do
          let name ← jGetD label "name" (JVal.str "Unknown")
          let label_id ← jGetD label "id" (JVal.str "Unknown")
          let label_type ← jGetD label "type" (JVal.str "Unknown")
          let total ← jGetD label "messagesTotal" (JVal.num 0)
          let unread ← jGetD label "messagesUnread" (JVal.num 0)
          return output ++ "• " ++ pyStr name ++ " (ID: " ++ pyStr label_id ++ ")\n" ++
            "  Type: " ++ pyStr label_type ++ " | Total: " ++ pyStr total ++
            " | Unread: " ++ pyStr unread ++ "\n\n")
        ("📂 Available Gmail Labels (" ++ toString n ++ "):\n\n")

/-! ## Todo Tool Adapters (todo.py, `setup_tools`, lines 129-329) -/

/-- `list_task_lists` rendering (lines 132-148). -/
def list_task_lists_render (result : JsonDict) : Py String :=
  match dictLookup result "error" with
  | some e => Except.ok ("Error: " ++ pyStr e)
  | none =>
    let task_lists := dictGetD result "taskLists" (JVal.arr [])
    if !pyTruthy task_lists then
      Except.ok "No task lists found."
    else do
      let n ← pyLen task_lists
      let items ← jElems task_lists
      (items.enumFrom 1).foldlM
        (fun output p => do
          let sharedFlag ← jGetD p.2 "isShared" (JVal.bool false)
          let shared_info := if pyTruthy sharedFlag then " (Shared)" else ""
          let name ← jIndex p.2 "name"
          let idv ← jIndex p.2 "id"
          return output ++ toString p.1 ++ ". " ++ pyStr name ++ " (ID: " ++ pyStr idv ++ ")" ++
            shared_info ++ "\n")
        ("Found " ++ toString n ++ " task lists:\n")

/-- `create_task_list` rendering (lines 150-165). -/
def create_task_list_render (result : JsonDict) : Py String :=
  match dictLookup result "error" with
  | some e => Except.ok ("Error creating task list: " ++ pyStr e)
  | none =>
    if pyTruthy (dictGetD result "success" JVal.null) then do
      let task_list ← dictIndex result "taskList"
      let name ← jIndex task_list "name"
      let idv ← jIndex task_list "id"
      return "✅ Successfully created task list \x27" ++ pyStr name ++ "\x27 (ID: " ++
        pyStr idv ++ ")"
    else Except.ok "Failed to create task list"

/-- `delete_task_list` rendering (lines 167-181). -/
def delete_task_list_render (list_id : String) (result : JsonDict) : Py String :=
  match dictLookup result "error" with
  | some e => Except.ok ("Error deleting task list: " ++ pyStr e)
  | none =>
    if pyTruthy (dictGetD result "success" JVal.null) then
      Except.ok ("✅ Successfully deleted task list (ID: " ++ list_id ++ ")")
    else Except.ok "Failed to delete task list"

/-- `list_tasks` rendering (lines 183-205). -/
def list_tasks_render (list_id : String) (result : JsonDict) : Py String :=
  match dictLookup result "error" with
  | some e => Except.ok ("Error listing tasks: " ++ pyStr e)
  | none =>
    let tasks := dictGetD result "tasks" (JVal.arr [])
    if !pyTruthy tasks then
      Except.ok ("No tasks found in this list (ID: " ++ list_id ++ ")")
    else do
      let n ← pyLen tasks
      let items ← jElems tasks
      (items.enumFrom 1).foldlM
        (fun output p => do
          let status ← jIndex p.2 "status"
          let status_icon := if jEqStr status "completed" then "✅" else "⏳"
          let dueFlag ← jGetD p.2 "dueDate" JVal.null
          let due_info ←
            if pyTruthy dueFlag then do
              let d ← jIndex p.2 "dueDate"
              pure (" (Due: " ++ pyStr d ++ ")")
            else pure ""
          let descFlag ← jGetD p.2 "description" JVal.null
          let description_info ←
            if pyTruthy descFlag then do
              let d ← jSliceTo (← jIndex p.2 "description") 50
              pure (" - " ++ pyStr d ++ "...")
            else pure ""
          let title ← jIndex p.2 "title"
          let idv ← jIndex p.2 "id"
          return output ++ toString p.1 ++ ". " ++ status_icon ++ " " ++ pyStr title ++
            due_info ++ description_info ++ " (ID: " ++ pyStr idv ++ ")\n")
        ("Found " ++ toString n ++ " tasks:\n")

/-- `create_task` rendering (lines 207-233). -/
def create_task_render (result : JsonDict) : Py String :=
  match dictLookup result "error" with
  | some e => Except.ok ("Error creating task: " ++ pyStr e)
  | none =>
    if pyTruthy (dictGetD result "success" JVal.null) then do
      let task ← dictIndex result "task"
      let dueFlag ← jGetD task "dueDate" JVal.null
      let due_info ←
        if pyTruthy dueFlag then do
          let d ← jIndex task "dueDate"
          pure (" (Due: " ++ pyStr d ++ ")")
        else pure ""
      let title ← jIndex task "title"
      let idv ← jIndex task "id"
      return "✅ Successfully created task \x27" ++ pyStr title ++ "\x27" ++ due_info ++
        " (ID: " ++ pyStr idv ++ ")"
    else Except.ok "Failed to create task"

/-- `update_task` rendering (lines 235-267). -/
def update_task_render (result : JsonDict) : Py String :=
  match dictLookup result "error" with
  | some e => Except.ok ("Error updating task: " ++ pyStr e)
  | none =>
    if pyTruthy (dictGetD result "success" JVal.null) then do
      let task ← dictIndex result "task"
      let title ← jIndex task "title"
      let idv ← jIndex task "id"
      return "✅ Successfully updated task \x27" ++ pyStr title ++ "\x27 (ID: " ++
        pyStr idv ++ ")"
    else Except.ok "Failed to update task"

/-- `complete_task` rendering (lines 269-285). -/
def complete_task_render (result : JsonDict) : Py String :=
  match dictLookup result "error" with
  | some e => Except.ok ("Error completing task: " ++ pyStr e)
  | none =>
    if pyTruthy (dictGetD result "success" JVal.null) then do
      let task ← dictIndex result "task"
      let title ← jIndex task "title"
      let idv ← jIndex task "id"
      return "✅ Successfully completed task \x27" ++ pyStr title ++ "\x27 (ID: " ++
        pyStr idv ++ ")"
    else Except.ok "Failed to complete task"

/-- `uncomplete_task` rendering (lines 287-303). -/
def uncomplete_task_render (result : JsonDict) : Py String :=
  match dictLookup result "error" with
  | some e => Except.ok ("Error marking task as not started: " ++ pyStr e)
  | none =>
    if pyTruthy (dictGetD result "success" JVal.null) then do
      let task ← dictIndex result "task"
      let title ← jIndex task "title"
      let idv ← jIndex task "id"
      return "✅ Successfully marked task \x27" ++ pyStr title ++
        "\x27 as not started (ID: " ++ pyStr idv ++ ")"
    else Except.ok "Failed to mark task as not started"

/-- `delete_task` rendering (lines 305-320). -/
def delete_task_render (task_id : String) (result : JsonDict) : Py String :=
  match dictLookup result "error" with
  | some e => Except.ok ("Error deleting task: " ++ pyStr e)
  | none =>
    if pyTruthy (dictGetD result "success" JVal.null) then
      Except.ok ("✅ Successfully deleted task (ID: " ++ task_id ++ ")")
    else Except.ok "Failed to delete task"

/-! ## Conversation history and the LangGraph state machine

A LangChain message is one of system/human/AI/tool; an AI message carries the
tool calls requested by the reasoning backend.  The reasoning backend
(`llm_with_tools.ainvoke`) is an oracle from the submitted message list to an
AI reply. -/

structure ToolCall where
  id : String
  name : String
  args : List (String × JVal)
  deriving Repr

inductive Message where
  | system (content : String)
  | human (content : String)
  | ai (content : String) (tool_calls : List ToolCall)
  | tool (tool_call_id : String) (name : String) (content : String)
  deriving Repr

def Message.content : Message → String
  | .system c => c
  | .human c => c
  | .ai c _ => c
  | .tool _ _ c => c

/-- The `tool_calls` attribute read by `should_continue`; only AI messages
carry requested tool calls (in LangChain, non-AI messages have none). -/
def Message.tool_calls : Message → List ToolCall
  | .ai _ tcs => tcs
  | _ => []

/-- The reply of one reasoning-backend invocation. -/
structure AiResp where
  content : String
  tool_calls : List ToolCall
  deriving Repr

/-- The reasoning backend: maps the full submitted message list (system message
included) to an AI reply. -/
abbrev Backend := List Message → AiResp

/-- Python `messages[-1]`: `IndexError` on an empty list. -/
def lastMessage (msgs : List Message) : Py Message :=
  match msgs.getLast? with
  | some m => Except.ok m
  | none => Except.error "IndexError: list index out of range"

/-- The target returned by the conditional edge out of the `agent` node. -/
inductive Route where
  | tools
  | END
  deriving Repr, DecidableEq

/-- `should_continue` — identical in main_agent.py (lines 204-211),
gmail_agent.py (lines 414-423) and todo.py (lines 340-349): route to the
`tools` node iff the last message carries tool calls. -/
def should_continue (messages : List Message) : Py Route := do
  let last ← lastMessage messages
  if !last.tool_calls.isEmpty then
    return Route.tools
  else
    return Route.END

/-- A node of the compiled graph (`done` stands for the graph's END). -/
inductive GNode where
  | agent
  | tools
  | done
  deriving Repr, DecidableEq

/-- An agent-node function: what `call_model` computes from the current
message list (the system-prompt prefixing is folded into this closure, since
the non-message state fields it reads never change during one graph run). -/
abbrev NodeLlm := List Message → AiResp

/-- A tool executor: what the `tools` node computes for one requested call. -/
abbrev ToolExec := ToolCall → String

/-- The tool calls the `tools` node executes: those of the last (AI) message.
The node is only reachable when that list is non-empty. -/
def pendingToolCalls (msgs : List Message) : List ToolCall :=
  match msgs.getLast? with
  | some m => m.tool_calls
  | none => []

/-- The tool-result messages appended by the `tools` node, in request order. -/
def execToolCalls (exec : ToolExec) (tcs : List ToolCall) : List Message :=
  tcs.map (fun tc => Message.tool tc.id tc.name (exec tc))

/-- One scheduler step of a compiled graph with nodes `agent` and `tools`,
edges `START → agent`, `add_conditional_edges("agent", should_continue)`, and
`add_edge("tools", toolsTarget)`.  The `agent` node invokes the reasoning
backend on the current history and appends the reply; the conditional edge
routes on the reply's tool calls; the `tools` node resolves every requested
call in order and appends the results, then follows the wired edge. -/
def graphStep (toolsTarget : GNode) (llm : NodeLlm) (exec : ToolExec) :
    GNode × List Message → GNode × List Message
  | (GNode.agent, msgs) =>
      let resp := llm msgs
      let msgs2 := msgs ++ [Message.ai resp.content resp.tool_calls]
      (if resp.tool_calls.isEmpty then GNode.done else GNode.tools, msgs2)
  | (GNode.tools, msgs) =>
      (toolsTarget, msgs ++ execToolCalls exec (pendingToolCalls msgs))
  | (GNode.done, msgs) => (GNode.done, msgs)

/-- main_agent.py line 260: `workflow.add_edge("tools", END)` — the Master
agent's `tools` node is wired to END. -/
def masterToolsTarget : GNode := GNode.done

/-- gmail_agent.py line 461: `workflow.add_edge("tools", "agent")`. -/
def gmailToolsTarget : GNode := GNode.agent

/-- todo.py line 374: `workflow.add_edge("tools", "agent")`. -/
def todoToolsTarget : GNode := GNode.agent

/-- Run a compiled graph to END from a given node, with fuel modelling
LangGraph's recursion limit (`none` = limit exceeded). -/
def runGraph (toolsTarget : GNode) (llm : NodeLlm) (exec : ToolExec) :
    Nat → GNode × List Message → Option (List Message)
  | _, (GNode.done, msgs) => some msgs
  | 0, _ => none
  | fuel + 1, st => runGraph toolsTarget llm exec fuel (graphStep toolsTarget llm exec st)

/-- `result["messages"][-1].content`, the answer extraction shared by all
three `chat` methods. -/
def last_content (msgs : List Message) : Py String := do
  let m ← lastMessage msgs
  return m.content

/-- Python truthiness of an optional string field (`if state.get(k):`). -/
def optStrTruthy : Option String → Bool
  | none => false
  | some s => !(s == "")

/-! ## Sub-agent conversation states and `chat` (todo.py, gmail_agent.py) -/

structure TodoAgentState where
  messages : List Message
  current_list_id : Option String
  current_list_name : Option String
  last_operation : Option String
  deriving Repr

structure GmailAgentState where
  messages : List Message
  current_message_id : Option String
  current_thread_id : Option String
  last_operation : Option String
  search_context : Option String
  deriving Repr

/-- The fresh state built by `TodoMCPAgent.chat` when none is passed
(todo.py lines 395-401). -/
def todo_default_state : TodoAgentState :=
  { messages := [], current_list_id := none, current_list_name := none,
    last_operation := none }

/-- The fresh state built by `GmailMCPAgent.chat` when none is passed
(gmail_agent.py lines 482-489). -/
def gmail_default_state : GmailAgentState :=
  { messages := [], current_message_id := none, current_thread_id := none,
    last_operation := none, search_context := none }

/-- `TodoMCPAgent`'s `call_model` (todo.py lines 351-362): submit
`[SystemMessage(SYSTEM_PROMPT)] + messages` to the backend. -/
def todo_call_model (prompt : String) (backend : Backend) : NodeLlm :=
  fun messages => backend (Message.system prompt :: messages)

/-- The dynamic context block appended to the Gmail system prompt
(gmail_agent.py lines 433-439). -/
def gmail_context_info (st : GmailAgentState) : String :=
  (if optStrTruthy st.current_message_id then
    "Currently focused on message ID: " ++ st.current_message_id.getD "" ++ "\n"
   else "") ++
  (if optStrTruthy st.search_context then
    "Recent search context: " ++ st.search_context.getD "" ++ "\n"
   else "") ++
  (if optStrTruthy st.last_operation then
    "Last operation: " ++ st.last_operation.getD "" ++ "\n"
   else "")

/-- The Gmail system-message content (gmail_agent.py lines 429-443). -/
def gmail_system_content (prompt : String) (st : GmailAgentState) : String :=
  let context_info := gmail_context_info st
  if context_info != "" then prompt ++ "\n\nCurrent Context:\n" ++ context_info
  else prompt

/-- `GmailMCPAgent`'s `call_model` (gmail_agent.py lines 425-449).  The
context fields it reads are never written by any graph node, so the closure
over the state at entry is exact. -/
def gmail_call_model (prompt : String) (backend : Backend) (st : GmailAgentState) : NodeLlm :=
  fun messages => backend (Message.system (gmail_system_content prompt st) :: messages)

/-- The state on which `TodoMCPAgent.chat` runs the graph: the passed state
(or a fresh one) with the user message appended (todo.py lines 394-404). -/
def todo_pre_state (state? : Option TodoAgentState) (message : String) : TodoAgentState :=
  let st0 := state?.getD todo_default_state
  { st0 with messages := st0.messages ++ [Message.human message] }

def gmail_pre_state (state? : Option GmailAgentState) (message : String) : GmailAgentState :=
  let st0 := state?.getD gmail_default_state
  { st0 with messages := st0.messages ++ [Message.human message] }

/-- `TodoMCPAgent.chat` (todo.py lines 380-413).  First component: the state
object the caller passed in, as observable after the call — the
`state["messages"].append(HumanMessage(content=message))` on line 404 mutates
it in place before the graph runs (`none` when no state was passed: the fresh
dict is not aliased by the caller).  Second component: the returned
`(response, result)` pair, with a raised `GraphRecursionError` (recursion
limit) or `IndexError` modelled as `Except.error`. -/
def todo_chat (prompt : String) (backend : Backend) (exec : ToolExec) (fuel : Nat)
    (state? : Option TodoAgentState) (message : String) :
    Option TodoAgentState × Py (String × TodoAgentState) :=
  let st1 := todo_pre_state state? message
  let caller_after := state?.map
    (fun s => { s with messages := s.messages ++ [Message.human message] })
  (caller_after,
    match runGraph todoToolsTarget (todo_call_model prompt backend) exec fuel
        (GNode.agent, st1.messages) with
    | none => Except.error "GraphRecursionError"
    | some finalMsgs => do
        let response ← last_content finalMsgs
        return (response, { st1 with messages := finalMsgs }))

/-- `GmailMCPAgent.chat` (gmail_agent.py lines 467-501); same structure as the
Todo variant. -/
def gmail_chat (prompt : String) (backend : Backend) (exec : ToolExec) (fuel : Nat)
    (state? : Option GmailAgentState) (message : String) :
    Option GmailAgentState × Py (String × GmailAgentState) :=
  let st1 := gmail_pre_state state? message
  let caller_after := state?.map
    (fun s => { s with messages := s.messages ++ [Message.human message] })
  (caller_after,
    match runGraph gmailToolsTarget (gmail_call_model prompt backend st1) exec fuel
        (GNode.agent, st1.messages) with
    | none => Except.error "GraphRecursionError"
    | some finalMsgs => do
        let response ← last_content finalMsgs
        return (response, { st1 with messages := finalMsgs }))

/-! ## Master agent (main_agent.py) -/

structure MasterAgentState where
  messages : List Message
  current_context : Option String
  conversation_summary : Option String
  deriving Repr

/-- The fresh state built by `MasterAgent.chat` when none is passed
(main_agent.py lines 281-287); the `sub_agent_states` field is initialized to
an empty dict and never read or written afterwards, so it is omitted. -/
def master_default_state : MasterAgentState :=
  { messages := [], current_context := none, conversation_summary := none }

/-- The dynamic context appended to the master system prompt
(main_agent.py lines 221-229). -/
def master_context_info (st : MasterAgentState) : String :=
  (if optStrTruthy st.current_context then
    "\nCurrent context: Working with " ++ st.current_context.getD ""
   else "") ++
  (if optStrTruthy st.conversation_summary then
    "\nConversation summary: " ++ st.conversation_summary.getD ""
   else "")

def master_system_content (prompt : String) (st : MasterAgentState) : String :=
  let context_info := master_context_info st
  if context_info != "" then prompt ++ context_info else prompt

/-- The `current_context` update performed by the master's `call_model`
(main_agent.py lines 237-243): the last recognized sub-agent tool name wins;
unrecognized names leave the previous value. -/
def master_updated_context (tcs : List ToolCall) (cur : Option String) : Option String :=
  tcs.foldl
    (fun acc tc =>
      if tc.name == "todo_agent" then some "Todo Agent"
      else if tc.name == "gmail_agent" then some "Gmail Agent"
      else acc)
    cur

/-- A sub-agent as the master sees it: its `chat` coroutine
(`Except.error` models a raised exception). -/
structure TodoHandle where
  chatFn : String → Option TodoAgentState → Py (String × TodoAgentState)

structure GmailHandle where
  chatFn : String → Option GmailAgentState → Py (String × GmailAgentState)

/-- The master's sub-agent references (`self.todo_agent`, `self.gmail_agent`);
`none` models an uninitialized sub-agent. -/
structure MasterEnv where
  todoAgent : Option TodoHandle
  gmailAgent : Option GmailHandle

/-- The `_current_state` attributes the master's wrapper tools bolt onto the
sub-agent objects (read via `getattr(…, '_current_state', None)`). -/
structure MasterRuntime where
  todo_current : Option TodoAgentState
  gmail_current : Option GmailAgentState

/-- The master's `todo_agent` wrapper tool (main_agent.py lines 116-151):
returns an availability error if the sub-agent is missing, otherwise forwards
the raw request to the sub-agent's `chat` with its retained state; on success
stores the updated state on `_current_state` and returns the sub-agent's
answer unchanged; any raised exception is caught and rendered. -/
def todo_agent_tool (env : MasterEnv) (rt : MasterRuntime) (user_request : String) :
    String × MasterRuntime :=
  match env.todoAgent with
  | none => ("❌ Todo Agent is not available. Please try again later.", rt)
  | some h =>
    match h.chatFn user_request rt.todo_current with
    | Except.ok (response, updated_state) =>
        (response, { rt with todo_current := some updated_state })
    | Except.error e => ("❌ Error with Todo Agent: " ++ e, rt)

/-- The master's `gmail_agent` wrapper tool (main_agent.py lines 153-189). -/
def gmail_agent_tool (env : MasterEnv) (rt : MasterRuntime) (user_request : String) :
    String × MasterRuntime :=
  match env.gmailAgent with
  | none => ("❌ Gmail Agent is not available. Please try again later.", rt)
  | some h =>
    match h.chatFn user_request rt.gmail_current with
    | Except.ok (response, updated_state) =>
        (response, { rt with gmail_current := some updated_state })
    | Except.error e => ("❌ Error with Gmail Agent: " ++ e, rt)

/-- The single `user_request: str` argument of a wrapper tool call. -/
def tool_call_request (tc : ToolCall) : Option String :=
  match tc.args with
  | [("user_request", JVal.str s)] => some s
  | _ => none

/-- Dispatch of one requested call by the master's `ToolNode`.  The
invalid-argument and unknown-tool-name replies are LangChain/LangGraph library
behavior, modelled abstractly; no claim depends on those paths. -/
def master_exec_tool (env : MasterEnv) (rt : MasterRuntime) (tc : ToolCall) :
    String × MasterRuntime :=
  if tc.name == "todo_agent" then
    match tool_call_request tc with
    | some ur => todo_agent_tool env rt ur
    | none => ("Error: invalid tool arguments", rt)
  else if tc.name == "gmail_agent" then
    match tool_call_request tc with
    | some ur => gmail_agent_tool env rt ur
    | none => ("Error: invalid tool arguments", rt)
  else
    ("Error: " ++ tc.name ++ " is not a valid tool, try one of [todo_agent, gmail_agent].", rt)

/-- The master's `tools` node: resolve every requested call in order,
threading the `_current_state` attributes, and append one tool message per
call. -/
def master_tool_node (env : MasterEnv) :
    MasterRuntime → List ToolCall → List Message × MasterRuntime
  | rt, [] => ([], rt)
  | rt, tc :: rest =>
      let (content, rt2) := master_exec_tool env rt tc
      let (msgs, rt3) := master_tool_node env rt2 rest
      (Message.tool tc.id tc.name content :: msgs, rt3)

/-- `self.graph.ainvoke(state)` for the master's compiled graph
(main_agent.py lines 195-264): `START → agent`; the `agent` node submits
`[system] + messages` to the backend, appends the reply and updates
`current_context`; the conditional edge follows `should_continue`; the `tools`
node resolves all requested calls and then follows `add_edge("tools", END)` —
the graph ends without re-invoking the backend. -/
def master_graph_invoke (prompt : String) (backend : Backend) (env : MasterEnv)
    (rt : MasterRuntime) (st : MasterAgentState) : MasterAgentState × MasterRuntime :=
  let resp := backend (Message.system (master_system_content prompt st) :: st.messages)
  let st2 : MasterAgentState :=
    { st with messages := st.messages ++ [Message.ai resp.content resp.tool_calls],
              current_context := master_updated_context resp.tool_calls st.current_context }
  if resp.tool_calls.isEmpty then (st2, rt)
  else
    let (toolMsgs, rt2) := master_tool_node env rt resp.tool_calls
    ({ st2 with messages := st2.messages ++ toolMsgs }, rt2)

/-- The state on which `MasterAgent.chat` runs the graph (lines 281-290). -/
def master_pre_state (state? : Option MasterAgentState) (message : String) : MasterAgentState :=
  let st0 := state?.getD master_default_state
  { st0 with messages := st0.messages ++ [Message.human message] }

structure MasterChatObs where
  /-- The state object the caller passed in, as observable after the call
  (`state["messages"].append(...)` on line 290 mutates it in place). -/
  caller_state_after : Option MasterAgentState
  /-- The returned `(response, result)` pair. -/
  outcome : Py (String × MasterAgentState)
  /-- The sub-agents' `_current_state` attributes after the call. -/
  runtime : MasterRuntime

/-- `MasterAgent.chat` (main_agent.py lines 266-299). -/
def master_chat (prompt : String) (backend : Backend) (env : MasterEnv) (rt : MasterRuntime)
    (state? : Option MasterAgentState) (message : String) : MasterChatObs :=
  let st1 := master_pre_state state? message
  let caller_after := state?.map
    (fun s => { s with messages := s.messages ++ [Message.human message] })
  let (result, rt2) := master_graph_invoke prompt backend env rt st1
  { caller_state_after := caller_after,
    outcome := do
      let response ← last_content result.messages
      return (response, result),
    runtime := rt2 }

/-! ## Interactive loops (main_agent.py lines 340-349, gmail_agent.py lines
518-527, todo.py lines 423-432) -/

/-- What one loop iteration does with a raw input line. -/
inductive LoopAction where
  | quitLoop
  | skipInput
  | process (user_input : String)
  deriving Repr, DecidableEq

/-- The decision in `MasterAgent.run_interactive`:
`user_input = input(...).strip()`; break when `user_input.lower()` is one of
the exit tokens; skip empty input; otherwise process. -/
def master_loop_action (raw : String) : LoopAction :=
  let user_input := raw.trim
  if ["quit", "exit", "bye", "q"].contains user_input.toLower then LoopAction.quitLoop
  else if user_input == "" then LoopAction.skipInput
  else LoopAction.process user_input

/-- The identical decision in `GmailMCPAgent.run_interactive`. -/
def gmail_loop_action (raw : String) : LoopAction :=
  let user_input := raw.trim
  if ["quit", "exit", "bye", "q"].contains user_input.toLower then LoopAction.quitLoop
  else if user_input == "" then LoopAction.skipInput
  else LoopAction.process user_input

/-- The identical decision in `TodoMCPAgent.run_interactive`. -/
def todo_loop_action (raw : String) : LoopAction :=
  let user_input := raw.trim
  if ["quit", "exit", "bye", "q"].contains user_input.toLower then LoopAction.quitLoop
  else if user_input == "" then LoopAction.skipInput
  else LoopAction.process user_input

/-! ## Supporting constants and concrete instances used by the theorems -/

/-- Whether an `Except` outcome is a success. -/
def isOkB {ε α : Type} : Except ε α → Bool
  | Except.ok _ => true
  | Except.error _ => false

/-- A connected-transport environment whose remote tool replies with zero
content items. -/
def mcpEnvEmptyReply : McpEnv :=
  { connectOutcome := Except.ok (),
    call := fun _ _ => Except.ok [],
    parse := fun t => Except.ok [("text", JVal.str t)] }

/-- A connected-transport environment whose remote tool replies with two
content items. -/
def mcpEnvTwoItems : McpEnv :=
  { connectOutcome := Except.ok (),
    call := fun _ _ => Except.ok [{ text := "a" }, { text := "b" }],
    parse := fun t => Except.ok [("text", JVal.str t)] }

/-- The same environment with the second content item dropped. -/
def mcpEnvOneItem : McpEnv :=
  { connectOutcome := Except.ok (),
    call := fun _ _ => Except.ok [{ text := "a" }],
    parse := fun t => Except.ok [("text", JVal.str t)] }

/-- A dict carrying an `"error"` key, as returned for a failed call. -/
def errorDictBoom : JsonDict := [("error", JVal.str "boom")]

/-- A transport environment whose connection attempt is refused. -/
def mcpEnvConnRefused : McpEnv :=
  { connectOutcome := Except.error "connection refused",
    call := fun _ _ => Except.ok [{ text := "a" }],
    parse := fun t => Except.ok [("text", JVal.str t)] }

/-- A master environment with no initialized sub-agents. -/
def masterEnvNone : MasterEnv := { todoAgent := none, gmailAgent := none }

/-- A master environment whose sub-agents answer successfully. -/
def masterEnvOk : MasterEnv :=
  { todoAgent := some { chatFn := fun _ _ => Except.ok ("done", todo_default_state) },
    gmailAgent := some { chatFn := fun _ _ => Except.ok ("sent", gmail_default_state) } }

/-- A master environment whose sub-agents raise. -/
def masterEnvRaises : MasterEnv :=
  { todoAgent := some { chatFn := fun _ _ => Except.error "boom" },
    gmailAgent := some { chatFn := fun _ _ => Except.error "boom" } }

/-- Empty retained sub-agent states. -/
def masterRuntimeEmpty : MasterRuntime := { todo_current := none, gmail_current := none }

/-- A backend whose reply never requests tools; used to instantiate C4. -/
def backendPlain : Backend := fun _ => { content := "hello", tool_calls := [] }

/-- A backend that always delegates to the `todo_agent` wrapper tool. -/
def backendDelegatesTodo : Backend :=
  fun _ => { content := "",
             tool_calls := [{ id := "1", name := "todo_agent",
                              args := [("user_request", JVal.str "show tasks")] }] }

/-- Whether a JSON value is a string. -/
def isStrB : JVal → Bool
  | .str _ => true
  | _ => false

/-- The named field, when present, is a string. -/
def strFieldOrAbsent (fields : List (String × JVal)) (k : String) : Bool :=
  match (fields.find? (fun p => p.1 == k)).map Prod.snd with
  | none => true
  | some (JVal.str _) => true
  | some _ => false

/-- The named field, when present, is an array of strings. -/
def strListFieldOrAbsent (fields : List (String × JVal)) (k : String) : Bool :=
  match (fields.find? (fun p => p.1 == k)).map Prod.snd with
  | none => true
  | some (JVal.arr xs) => xs.all isStrB
  | some _ => false

/-- A message object as the Gmail MCP server produces it: a JSON object whose
`from`/`subject`/`date` fields, when present, are strings and whose
`labelIds` field, when present, is an array of strings (`id` may be any
value — it is interpolated directly). -/
def msgWF : JVal → Bool
  | JVal.obj fields =>
      strFieldOrAbsent fields "from" && strFieldOrAbsent fields "subject" &&
      strFieldOrAbsent fields "date" && strListFieldOrAbsent fields "labelIds"
  | _ => false

/-- The fixed template of one rendered `list_messages` entry: a numbered block
with populated From/Subject/Date/Labels/ID fields. -/
def list_messages_entry_template (i : Nat) (a b c d e : String) : String :=
  toString i ++ ". From: " ++ a ++ "\n" ++
    "   Subject: " ++ b ++ "\n" ++
    "   Date: " ++ c ++ "\n" ++
    "   Labels: " ++ d ++ "\n" ++
    "   ID: " ++ e ++ "\n\n"

/-- Concatenation of rendered entries (in order). -/
def concatStrings (l : List String) : String := l.foldr (fun a b => a ++ b) ""

/-- A well-formed two-message reply from the tool-serving endpoint
(Scenario A of the spec). -/
def gmailMsgOne : JVal :=
  JVal.obj [("from", JVal.str "alice@example.com"), ("subject", JVal.str "Hi"),
    ("date", JVal.str "2024-01-01"),
    ("labelIds", JVal.arr [JVal.str "INBOX", JVal.str "UNREAD"]),
    ("id", JVal.str "m1")]

def gmailMsgTwo : JVal :=
  JVal.obj [("from", JVal.str "bob@example.com"), ("subject", JVal.str "Re: Hi"),
    ("date", JVal.str "2024-01-02"), ("labelIds", JVal.arr [JVal.str "INBOX"]),
    ("id", JVal.str "m2")]

def gmailListReply : JsonDict := [("messages", JVal.arr [gmailMsgOne, gmailMsgTwo])]

/-! ## Theorems -/

/-- C6: establishing the MCP connection is idempotent — `connect_mcp` and
`call_mcp_tool` (both agents) perform zero connection attempts when the
`connected` flag is already set and exactly one when it is not, and
`call_mcp_tool` issues the remote tool call exactly when a connection is
available (already connected, or the single attempt succeeded). -/
theorem c6_connection_idempotent (env : McpEnv) (c : Bool) (tool_name : String)
    (params : Option (List (String × JVal))) :
    (gmail_connect_mcp env c).2 = (if c then 0 else 1) ∧
    (todo_connect_mcp env c).2 = (if c then 0 else 1) ∧
    (gmail_call_mcp_tool env c tool_name params).connect_attempts = (if c then 0 else 1) ∧
    (todo_call_mcp_tool env c tool_name params).connect_attempts = (if c then 0 else 1) ∧
    (gmail_call_mcp_tool env c tool_name params).tool_called = (c || isOkB env.connectOutcome) ∧
    (todo_call_mcp_tool env c tool_name params).tool_called = (c || isOkB env.connectOutcome) := by
  cases c <;> cases hco : env.connectOutcome <;>
    cases hcall : env.call tool_name (params.getD []) <;>
      simp [gmail_connect_mcp, todo_connect_mcp, gmail_call_mcp_tool, todo_call_mcp_tool,
        hco, hcall, isOkB] <;>
      (try (rename_i items
            cases items with
            | nil => simp
            | cons item rest =>
                cases hp : env.parse item.text <;> simp [hp]))

/-- C5: `call_mcp_tool` (both agents) returns the `EmptyResult` error dict
without parsing anything when the reply has zero content items, and otherwise
unwraps exactly the first content item — parsing only that item's text and
ignoring all later items entirely. -/
theorem c5_first_content_item (env : McpEnv) (c : Bool) (tool_name : String)
    (params : Option (List (String × JVal)))
    (hconn : c = true ∨ env.connectOutcome = Except.ok ()) :
    (env.call tool_name (params.getD []) = Except.ok [] →
      (gmail_call_mcp_tool env c tool_name params).result =
        [("error", JVal.str "No result received from MCP server")] ∧
      (gmail_call_mcp_tool env c tool_name params).parsed_texts = [] ∧
      (todo_call_mcp_tool env c tool_name params).result =
        [("error", JVal.str "No result received from MCP server")] ∧
      (todo_call_mcp_tool env c tool_name params).parsed_texts = []) ∧
    (∀ item rest, env.call tool_name (params.getD []) = Except.ok (item :: rest) →
      (gmail_call_mcp_tool env c tool_name params).parsed_texts = [item.text] ∧
      (todo_call_mcp_tool env c tool_name params).parsed_texts = [item.text]) ∧
    (∀ env2 item rest rest2,
      env2.connectOutcome = env.connectOutcome → env2.parse = env.parse →
      env.call tool_name (params.getD []) = Except.ok (item :: rest) →
      env2.call tool_name (params.getD []) = Except.ok (item :: rest2) →
      gmail_call_mcp_tool env c tool_name params = gmail_call_mcp_tool env2 c tool_name params ∧
      todo_call_mcp_tool env c tool_name params = todo_call_mcp_tool env2 c tool_name params) := by
  refine ⟨?_, ?_, ?_⟩
  · intro hcall
    rcases hconn with hc | hok
    · subst hc
      simp [gmail_call_mcp_tool, todo_call_mcp_tool, hcall]
    · cases c <;>
        simp [gmail_call_mcp_tool, todo_call_mcp_tool, gmail_connect_mcp, todo_connect_mcp,
          hok, hcall]
  · intro item rest hcall
    rcases hconn with hc | hok
    · subst hc
      cases hp : env.parse item.text <;>
        simp [gmail_call_mcp_tool, todo_call_mcp_tool, hcall, hp]
    · cases c <;> cases hp : env.parse item.text <;>
        simp [gmail_call_mcp_tool, todo_call_mcp_tool, gmail_connect_mcp, todo_connect_mcp,
          hok, hcall, hp]
  · intro env2 item rest rest2 hco hpa hcall hcall2
    rcases hconn with hc | hok
    · subst hc
      cases hp : env.parse item.text <;>
        simp [gmail_call_mcp_tool, todo_call_mcp_tool, hcall, hcall2, hpa, hp]
    · cases c <;> cases hp : env.parse item.text <;>
        simp [gmail_call_mcp_tool, todo_call_mcp_tool, gmail_connect_mcp, todo_connect_mcp,
          hok, hco, hpa, hcall, hcall2, hp]

/-- Concrete instance of the C5 theorem: an empty reply yields the
`EmptyResult` error dict; a second content item is ignored; only the first
item's text reaches the JSON parser. -/
theorem c5_first_content_item_witness :
    (gmail_call_mcp_tool mcpEnvEmptyReply true "t" none).result =
      [("error", JVal.str "No result received from MCP server")] ∧
    gmail_call_mcp_tool mcpEnvTwoItems true "t" none =
      gmail_call_mcp_tool mcpEnvOneItem true "t" none ∧
    (todo_call_mcp_tool mcpEnvTwoItems true "t" none).parsed_texts = ["a"] := by
  refine ⟨((c5_first_content_item mcpEnvEmptyReply true "t" none (Or.inl rfl)).1 rfl).1, ?_, ?_⟩
  · exact ((c5_first_content_item mcpEnvTwoItems true "t" none (Or.inl rfl)).2.2
      mcpEnvOneItem { text := "a" } [{ text := "b" }] [] rfl rfl rfl rfl).1
  · exact ((c5_first_content_item mcpEnvTwoItems true "t" none (Or.inl rfl)).2.1
      { text := "a" } [{ text := "b" }] rfl).2

/-- C3: `call_mcp_tool` (both agents) never lets an exception escape — its
result is always a returned dict, and unless the connect/call/parse pipeline
fully succeeded (in which case the result is exactly the parsed dict), the
dict carries an `"error"` key; and every one of the nineteen wrapping adapter
tools, given a dict carrying an `"error"` key, returns its rendered
`Error <operation>: <message>` string rather than raising. -/
theorem c3_failures_returned_as_values :
    (∀ (env : McpEnv) (c : Bool) (tool_name : String)
        (params : Option (List (String × JVal))),
      ((dictLookup (gmail_call_mcp_tool env c tool_name params).result "error").isSome = true ∨
        (∃ item rest d, env.call tool_name (params.getD []) = Except.ok (item :: rest) ∧
          env.parse item.text = Except.ok d ∧
          (gmail_call_mcp_tool env c tool_name params).result = d)) ∧
      ((dictLookup (todo_call_mcp_tool env c tool_name params).result "error").isSome = true ∨
        (∃ item rest d, env.call tool_name (params.getD []) = Except.ok (item :: rest) ∧
          env.parse item.text = Except.ok d ∧
          (todo_call_mcp_tool env c tool_name params).result = d))) ∧
    (∀ (d : JsonDict) (e : JVal), dictLookup d "error" = some e →
      (∀ q, list_messages_render q d = Except.ok ("Error listing messages: " ++ pyStr e)) ∧
      get_message_render d = Except.ok ("Error getting message: " ++ pyStr e) ∧
      (∀ q, search_messages_render q d = Except.ok ("Error searching messages: " ++ pyStr e)) ∧
      (∀ t s, send_message_render t s d = Except.ok ("Error sending message: " ++ pyStr e)) ∧
      (∀ m, reply_to_message_render m d = Except.ok ("Error sending reply: " ++ pyStr e)) ∧
      (∀ m, mark_message_as_read_render m d =
        Except.ok ("Error marking message as read: " ++ pyStr e)) ∧
      (∀ m, mark_message_as_unread_render m d =
        Except.ok ("Error marking message as unread: " ++ pyStr e)) ∧
      (∀ m l, add_label_to_message_render m l d =
        Except.ok ("Error adding label: " ++ pyStr e)) ∧
      (∀ m l, remove_label_from_message_render m l d =
        Except.ok ("Error removing label: " ++ pyStr e)) ∧
      list_labels_render d = Except.ok ("Error listing labels: " ++ pyStr e) ∧
      list_task_lists_render d = Except.ok ("Error: " ++ pyStr e) ∧
      create_task_list_render d = Except.ok ("Error creating task list: " ++ pyStr e) ∧
      (∀ l, delete_task_list_render l d =
        Except.ok ("Error deleting task list: " ++ pyStr e)) ∧
      (∀ l, list_tasks_render l d = Except.ok ("Error listing tasks: " ++ pyStr e)) ∧
      create_task_render d = Except.ok ("Error creating task: " ++ pyStr e) ∧
      update_task_render d = Except.ok ("Error updating task: " ++ pyStr e) ∧
      complete_task_render d = Except.ok ("Error completing task: " ++ pyStr e) ∧
      uncomplete_task_render d = Except.ok ("Error marking task as not started: " ++ pyStr e) ∧
      (∀ t, delete_task_render t d = Except.ok ("Error deleting task: " ++ pyStr e))) := by
  constructor
  · intro env c tool_name params
    constructor
    · have hfailed : ∀ (hco : env.connectOutcome.isOk = false), c = false →
          (dictLookup (gmail_call_mcp_tool env c tool_name params).result "error").isSome
            = true := by
        intro hco hc
        subst hc
        cases hcoe : env.connectOutcome with
        | ok u => rw [hcoe] at hco; simp [Except.isOk, Except.toBool] at hco
        | error e => simp [gmail_call_mcp_tool, gmail_connect_mcp, hcoe, dictLookup]
      by_cases hconn : c = false ∧ env.connectOutcome.isOk = false
      · exact Or.inl (hfailed hconn.2 hconn.1)
      · cases hcall : env.call tool_name (params.getD []) with
        | error e =>
            refine Or.inl ?_
            rcases Decidable.not_and_iff_or_not.mp hconn with hc | hco
            · have hc2 : c = true := by revert hc; cases c <;> simp
              subst hc2
              simp [gmail_call_mcp_tool, hcall, dictLookup]
            · have hco2 : env.connectOutcome.isOk = true := by revert hco; simp
              cases c with
              | true => simp [gmail_call_mcp_tool, hcall, dictLookup]
              | false =>
                  cases hcoe : env.connectOutcome with
                  | error e2 => rw [hcoe] at hco2; simp [Except.isOk, Except.toBool] at hco2
                  | ok u =>
                      simp [gmail_call_mcp_tool, gmail_connect_mcp, hcoe, hcall, dictLookup]
        | ok items =>
            have hstep : ∀ items2, env.call tool_name (params.getD []) = Except.ok items2 →
                (gmail_call_mcp_tool env c tool_name params).result =
                  (match items2 with
                   | [] => [("error", JVal.str "No result received from MCP server")]
                   | item :: _ =>
                      match env.parse item.text with
                      | Except.error e =>
                          [("error", JVal.str ("Error calling MCP tool " ++ tool_name ++
                            ": " ++ e))]
                      | Except.ok d => d) := by
              intro items2 hcall2
              rcases Decidable.not_and_iff_or_not.mp hconn with hc | hco
              · have hc2 : c = true := by revert hc; cases c <;> simp
                subst hc2
                simp [gmail_call_mcp_tool, hcall2]
                cases items2 with
                | nil => rfl
                | cons it tl => cases hp2 : env.parse it.text <;> simp [hp2]
              · have hco2 : env.connectOutcome.isOk = true := by revert hco; simp
                cases c with
                | true =>
                    simp [gmail_call_mcp_tool, hcall2]
                    cases items2 with
                    | nil => rfl
                    | cons it tl => cases hp2 : env.parse it.text <;> simp [hp2]
                | false =>
                    cases hcoe : env.connectOutcome with
                    | error e2 => rw [hcoe] at hco2; simp [Except.isOk, Except.toBool] at hco2
                    | ok u =>
                        simp [gmail_call_mcp_tool, gmail_connect_mcp, hcoe, hcall2]
                        cases items2 with
                        | nil => rfl
                        | cons it tl => cases hp2 : env.parse it.text <;> simp [hp2]
            cases items with
            | nil => exact Or.inl (by rw [hstep [] hcall]; simp [dictLookup])
            | cons item rest =>
                cases hp : env.parse item.text with
                | error e =>
                    exact Or.inl (by rw [hstep (item :: rest) hcall]; simp [hp, dictLookup])
                | ok dd =>
                    exact Or.inr ⟨item, rest, dd, rfl, hp, by
                      rw [hstep (item :: rest) hcall]; simp [hp]⟩
    · have hfailed : ∀ (hco : env.connectOutcome.isOk = false), c = false →
          (dictLookup (todo_call_mcp_tool env c tool_name params).result "error").isSome
            = true := by
        intro hco hc
        subst hc
        cases hcoe : env.connectOutcome with
        | ok u => rw [hcoe] at hco; simp [Except.isOk, Except.toBool] at hco
        | error e => simp [todo_call_mcp_tool, todo_connect_mcp, hcoe, dictLookup]
      by_cases hconn : c = false ∧ env.connectOutcome.isOk = false
      · exact Or.inl (hfailed hconn.2 hconn.1)
      · cases hcall : env.call tool_name (params.getD []) with
        | error e =>
            refine Or.inl ?_
            rcases Decidable.not_and_iff_or_not.mp hconn with hc | hco
            · have hc2 : c = true := by revert hc; cases c <;> simp
              subst hc2
              simp [todo_call_mcp_tool, hcall, dictLookup]
            · have hco2 : env.connectOutcome.isOk = true := by revert hco; simp
              cases c with
              | true => simp [todo_call_mcp_tool, hcall, dictLookup]
              | false =>
                  cases hcoe : env.connectOutcome with
                  | error e2 => rw [hcoe] at hco2; simp [Except.isOk, Except.toBool] at hco2
                  | ok u =>
                      simp [todo_call_mcp_tool, todo_connect_mcp, hcoe, hcall, dictLookup]
        | ok items =>
            have hstep : ∀ items2, env.call tool_name (params.getD []) = Except.ok items2 →
                (todo_call_mcp_tool env c tool_name params).result =
                  (match items2 with
                   | [] => [("error", JVal.str "No result received from MCP server")]
                   | item :: _ =>
                      match env.parse item.text with
                      | Except.error e =>
                          [("error", JVal.str ("Error calling MCP tool " ++ tool_name ++
                            ": " ++ e))]
                      | Except.ok d => d) := by
              intro items2 hcall2
              rcases Decidable.not_and_iff_or_not.mp hconn with hc | hco
              · have hc2 : c = true := by revert hc; cases c <;> simp
                subst hc2
                simp [todo_call_mcp_tool, hcall2]
                cases items2 with
                | nil => rfl
                | cons it tl => cases hp2 : env.parse it.text <;> simp [hp2]
              · have hco2 : env.connectOutcome.isOk = true := by revert hco; simp
                cases c with
                | true =>
                    simp [todo_call_mcp_tool, hcall2]
                    cases items2 with
                    | nil => rfl
                    | cons it tl => cases hp2 : env.parse it.text <;> simp [hp2]
                | false =>
                    cases hcoe : env.connectOutcome with
                    | error e2 => rw [hcoe] at hco2; simp [Except.isOk, Except.toBool] at hco2
                    | ok u =>
                        simp [todo_call_mcp_tool, todo_connect_mcp, hcoe, hcall2]
                        cases items2 with
                        | nil => rfl
                        | cons it tl => cases hp2 : env.parse it.text <;> simp [hp2]
            cases items with
            | nil => exact Or.inl (by rw [hstep [] hcall]; simp [dictLookup])
            | cons item rest =>
                cases hp : env.parse item.text with
                | error e =>
                    exact Or.inl (by rw [hstep (item :: rest) hcall]; simp [hp, dictLookup])
                | ok dd =>
                    exact Or.inr ⟨item, rest, dd, rfl, hp, by
                      rw [hstep (item :: rest) hcall]; simp [hp]⟩
  · intro d e h
    refine ⟨fun q => ?_, ?_, fun q => ?_, fun t s => ?_, fun m => ?_, fun m => ?_, fun m => ?_,
      fun m l => ?_, fun m l => ?_, ?_, ?_, ?_, fun l => ?_, fun l => ?_, ?_, ?_, ?_, ?_,
      fun t => ?_⟩ <;>
      simp [list_messages_render, get_message_render, search_messages_render,
        send_message_render, reply_to_message_render, mark_message_as_read_render,
        mark_message_as_unread_render, add_label_to_message_render,
        remove_label_from_message_render, list_labels_render, list_task_lists_render,
        create_task_list_render, delete_task_list_render, list_tasks_render,
        create_task_render, update_task_render, complete_task_render,
        uncomplete_task_render, delete_task_render, h]

/-- Concrete instance of the C3 theorem: with a refused connection the
returned dict carries an `"error"` key, and two sample adapters render the
error dict as text. -/
theorem c3_failures_returned_as_values_witness :
    ((dictLookup (gmail_call_mcp_tool mcpEnvConnRefused false "t" none).result "error").isSome
        = true ∨
      (∃ item rest d, mcpEnvConnRefused.call "t" ((none : Option (List (String × JVal))).getD [])
          = Except.ok (item :: rest) ∧
        mcpEnvConnRefused.parse item.text = Except.ok d ∧
        (gmail_call_mcp_tool mcpEnvConnRefused false "t" none).result = d)) ∧
    list_messages_render "" errorDictBoom = Except.ok "Error listing messages: boom" ∧
    delete_task_render "T1" errorDictBoom = Except.ok "Error deleting task: boom" := by
  refine ⟨(c3_failures_returned_as_values.1 mcpEnvConnRefused false "t" none).1, ?_, ?_⟩
  · exact (c3_failures_returned_as_values.2 errorDictBoom (JVal.str "boom") rfl).1 ""
  · exact (c3_failures_returned_as_values.2 errorDictBoom (JVal.str "boom") rfl).2.2.2.2.2.2.2.2.2.2.2.2.2.2.2.2.2.2 "T1"

/-- C8: in all three interactive loops, an input line terminates the loop
exactly when, after stripping surrounding whitespace and lowercasing, it
equals one of the four exit tokens `quit`, `exit`, `bye`, `q`. -/
theorem c8_exit_tokens (raw : String) :
    (master_loop_action raw = LoopAction.quitLoop ↔
      raw.trim.toLower ∈ ["quit", "exit", "bye", "q"]) ∧
    (gmail_loop_action raw = LoopAction.quitLoop ↔
      raw.trim.toLower ∈ ["quit", "exit", "bye", "q"]) ∧
    (todo_loop_action raw = LoopAction.quitLoop ↔
      raw.trim.toLower ∈ ["quit", "exit", "bye", "q"]) := by
  have gen : ∀ u : String,
      ((if (["quit", "exit", "bye", "q"] : List String).contains u.toLower then
          LoopAction.quitLoop
        else if u == "" then LoopAction.skipInput
        else LoopAction.process u) = LoopAction.quitLoop ↔
        u.toLower ∈ ["quit", "exit", "bye", "q"]) := by
    intro u
    by_cases hc : (["quit", "exit", "bye", "q"] : List String).contains u.toLower = true
    · simp [hc, List.elem_iff.mp hc]
    · rw [Bool.not_eq_true] at hc
      have hm : u.toLower ∉ (["quit", "exit", "bye", "q"] : List String) := by
        intro hmem
        have h2 : (["quit", "exit", "bye", "q"] : List String).contains u.toLower = true :=
          List.elem_iff.mpr hmem
        rw [hc] at h2
        exact Bool.false_ne_true h2
      simp only [hc, Bool.false_eq_true, if_false, hm, iff_false]
      by_cases he : (u == "") = true <;> simp [he]
  exact ⟨by simpa [master_loop_action] using gen raw.trim,
    by simpa [gmail_loop_action] using gen raw.trim,
    by simpa [todo_loop_action] using gen raw.trim⟩

/-- C10: the master's two sub-agent wrapper tools are total — a missing
sub-agent reference yields the fixed availability-error string, a raised
exception from the sub-agent's `chat` yields the rendered error string with
the retained state untouched (both error strings begin with the ❌ marker),
and a successful `chat` stores the updated state on the sub-agent's
`_current_state` and returns the answer unchanged. -/
theorem c10_wrapper_tools (env : MasterEnv) (rt : MasterRuntime) (req : String) :
    (env.todoAgent = none →
      todo_agent_tool env rt req =
        ("❌ Todo Agent is not available. Please try again later.", rt)) ∧
    (∀ h e, env.todoAgent = some h → h.chatFn req rt.todo_current = Except.error e →
      todo_agent_tool env rt req = ("❌ Error with Todo Agent: " ++ e, rt)) ∧
    (∀ h a st, env.todoAgent = some h → h.chatFn req rt.todo_current = Except.ok (a, st) →
      todo_agent_tool env rt req = (a, { rt with todo_current := some st })) ∧
    ((env.todoAgent = none ∨
        ∃ h e, env.todoAgent = some h ∧ h.chatFn req rt.todo_current = Except.error e) →
      ∃ rest, (todo_agent_tool env rt req).1 = "❌" ++ rest) ∧
    (env.gmailAgent = none →
      gmail_agent_tool env rt req =
        ("❌ Gmail Agent is not available. Please try again later.", rt)) ∧
    (∀ h e, env.gmailAgent = some h → h.chatFn req rt.gmail_current = Except.error e →
      gmail_agent_tool env rt req = ("❌ Error with Gmail Agent: " ++ e, rt)) ∧
    (∀ h a st, env.gmailAgent = some h → h.chatFn req rt.gmail_current = Except.ok (a, st) →
      gmail_agent_tool env rt req = (a, { rt with gmail_current := some st })) ∧
    ((env.gmailAgent = none ∨
        ∃ h e, env.gmailAgent = some h ∧ h.chatFn req rt.gmail_current = Except.error e) →
      ∃ rest, (gmail_agent_tool env rt req).1 = "❌" ++ rest) := by
  refine ⟨?_, ?_, ?_, ?_, ?_, ?_, ?_, ?_⟩
  · intro hnone; simp [todo_agent_tool, hnone]
  · intro h e hsome herr; simp [todo_agent_tool, hsome, herr]
  · intro h a st hsome hok; simp [todo_agent_tool, hsome, hok]
  · rintro (hnone | ⟨h, e, hsome, herr⟩)
    · exact ⟨" Todo Agent is not available. Please try again later.", by
        simp [todo_agent_tool, hnone]⟩
    · exact ⟨" Error with Todo Agent: " ++ e, by
        simp [todo_agent_tool, hsome, herr]
        rfl⟩
  · intro hnone; simp [gmail_agent_tool, hnone]
  · intro h e hsome herr; simp [gmail_agent_tool, hsome, herr]
  · intro h a st hsome hok; simp [gmail_agent_tool, hsome, hok]
  · rintro (hnone | ⟨h, e, hsome, herr⟩)
    · exact ⟨" Gmail Agent is not available. Please try again later.", by
        simp [gmail_agent_tool, hnone]⟩
    · exact ⟨" Error with Gmail Agent: " ++ e, by
        simp [gmail_agent_tool, hsome, herr]
        rfl⟩

/-- Concrete instance of the C10 theorem covering all three cases of the todo
wrapper and the success case of the gmail wrapper. -/
theorem c10_wrapper_tools_witness :
    todo_agent_tool masterEnvNone masterRuntimeEmpty "x" =
      ("❌ Todo Agent is not available. Please try again later.", masterRuntimeEmpty) ∧
    todo_agent_tool masterEnvRaises masterRuntimeEmpty "x" =
      ("❌ Error with Todo Agent: boom", masterRuntimeEmpty) ∧
    todo_agent_tool masterEnvOk masterRuntimeEmpty "x" =
      ("done", { masterRuntimeEmpty with todo_current := some todo_default_state }) ∧
    gmail_agent_tool masterEnvOk masterRuntimeEmpty "x" =
      ("sent", { masterRuntimeEmpty with gmail_current := some gmail_default_state }) := by
  refine ⟨(c10_wrapper_tools masterEnvNone masterRuntimeEmpty "x").1 rfl, ?_, ?_, ?_⟩
  · exact (c10_wrapper_tools masterEnvRaises masterRuntimeEmpty "x").2.1
      { chatFn := fun _ _ => Except.error "boom" } "boom" rfl rfl
  · exact (c10_wrapper_tools masterEnvOk masterRuntimeEmpty "x").2.2.1
      { chatFn := fun _ _ => Except.ok ("done", todo_default_state) }
      "done" todo_default_state rfl rfl
  · exact (c10_wrapper_tools masterEnvOk masterRuntimeEmpty "x").2.2.2.2.2.2.1
      { chatFn := fun _ _ => Except.ok ("sent", gmail_default_state) }
      "sent" gmail_default_state rfl rfl

/-- C9: every agent's `chat`, given a non-`none` state, appends the new user
message to the passed-in state object's `messages` in place before the graph
runs, so the caller's state object does not remain unchanged after the
call. -/
theorem c9_chat_mutates_caller_state (message : String) :
    (∀ (st : TodoAgentState) (prompt : String) (backend : Backend) (exec : ToolExec)
        (fuel : Nat),
      (todo_chat prompt backend exec fuel (some st) message).1 =
        some { st with messages := st.messages ++ [Message.human message] } ∧
      (todo_chat prompt backend exec fuel (some st) message).1 ≠ some st) ∧
    (∀ (st : GmailAgentState) (prompt : String) (backend : Backend) (exec : ToolExec)
        (fuel : Nat),
      (gmail_chat prompt backend exec fuel (some st) message).1 =
        some { st with messages := st.messages ++ [Message.human message] } ∧
      (gmail_chat prompt backend exec fuel (some st) message).1 ≠ some st) ∧
    (∀ (st : MasterAgentState) (prompt : String) (backend : Backend) (env : MasterEnv)
        (rt : MasterRuntime),
      (master_chat prompt backend env rt (some st) message).caller_state_after =
        some { st with messages := st.messages ++ [Message.human message] } ∧
      (master_chat prompt backend env rt (some st) message).caller_state_after ≠ some st) := by
  refine ⟨?_, ?_, ?_⟩
  · intro st prompt backend exec fuel
    have h1 : (todo_chat prompt backend exec fuel (some st) message).1 =
        some { st with messages := st.messages ++ [Message.human message] } := by
      simp [todo_chat]
    refine ⟨h1, ?_⟩
    rw [h1]
    intro heq
    have h2 := congrArg TodoAgentState.messages (Option.some.inj heq)
    have h3 := congrArg List.length h2
    simp at h3
  · intro st prompt backend exec fuel
    have h1 : (gmail_chat prompt backend exec fuel (some st) message).1 =
        some { st with messages := st.messages ++ [Message.human message] } := by
      simp [gmail_chat]
    refine ⟨h1, ?_⟩
    rw [h1]
    intro heq
    have h2 := congrArg GmailAgentState.messages (Option.some.inj heq)
    have h3 := congrArg List.length h2
    simp at h3
  · intro st prompt backend env rt
    have h1 : (master_chat prompt backend env rt (some st) message).caller_state_after =
        some { st with messages := st.messages ++ [Message.human message] } := by
      simp [master_chat]
    refine ⟨h1, ?_⟩
    rw [h1]
    intro heq
    have h2 := congrArg MasterAgentState.messages (Option.some.inj heq)
    have h3 := congrArg List.length h2
    simp at h3

/-- Concrete instance of the C9 theorem: passing an existing Todo state to
`chat` leaves the caller holding that object with the user message appended,
an observably different state. -/
theorem c9_chat_mutates_caller_state_witness :
    (todo_chat "p" backendPlain (fun _ => "unused") 1 (some todo_default_state) "hi").1 =
      some { todo_default_state with
        messages := todo_default_state.messages ++ [Message.human "hi"] } ∧
    (todo_chat "p" backendPlain (fun _ => "unused") 1 (some todo_default_state) "hi").1 ≠
      some todo_default_state :=
  (c9_chat_mutates_caller_state "hi").1 todo_default_state "p" backendPlain
    (fun _ => "unused") 1

/-- C4: in every agent, when the reasoning backend's reply carries zero tool
calls, the conditional edge routes to END, no tool is executed (the outcome is
identical for every tool executor, and for the master also for every sub-agent
environment, whose retained states are untouched), and `chat` returns exactly
the reply's text with only that reply appended to the history. -/
theorem c4_zero_tool_calls_ends (prompt message : String) (backend : Backend) :
    (∀ (state? : Option TodoAgentState) (c : String),
      backend (Message.system prompt :: (todo_pre_state state? message).messages) =
        { content := c, tool_calls := [] } →
      should_continue ((todo_pre_state state? message).messages ++ [Message.ai c []]) =
        Except.ok Route.END ∧
      ∀ (exec exec2 : ToolExec) (fuel : Nat),
        (todo_chat prompt backend exec (fuel + 1) state? message).2 =
          Except.ok (c, { todo_pre_state state? message with
            messages := (todo_pre_state state? message).messages ++ [Message.ai c []] }) ∧
        (todo_chat prompt backend exec (fuel + 1) state? message).2 =
          (todo_chat prompt backend exec2 (fuel + 1) state? message).2) ∧
    (∀ (state? : Option GmailAgentState) (c : String),
      backend (Message.system (gmail_system_content prompt (gmail_pre_state state? message)) ::
          (gmail_pre_state state? message).messages) =
        { content := c, tool_calls := [] } →
      should_continue ((gmail_pre_state state? message).messages ++ [Message.ai c []]) =
        Except.ok Route.END ∧
      ∀ (exec exec2 : ToolExec) (fuel : Nat),
        (gmail_chat prompt backend exec (fuel + 1) state? message).2 =
          Except.ok (c, { gmail_pre_state state? message with
            messages := (gmail_pre_state state? message).messages ++ [Message.ai c []] }) ∧
        (gmail_chat prompt backend exec (fuel + 1) state? message).2 =
          (gmail_chat prompt backend exec2 (fuel + 1) state? message).2) ∧
    (∀ (state? : Option MasterAgentState) (c : String),
      backend (Message.system (master_system_content prompt (master_pre_state state? message)) ::
          (master_pre_state state? message).messages) =
        { content := c, tool_calls := [] } →
      should_continue ((master_pre_state state? message).messages ++ [Message.ai c []]) =
        Except.ok Route.END ∧
      ∀ (env env2 : MasterEnv) (rt rt2 : MasterRuntime),
        (master_chat prompt backend env rt state? message).outcome =
          Except.ok (c, { master_pre_state state? message with
            messages := (master_pre_state state? message).messages ++ [Message.ai c []] }) ∧
        (master_chat prompt backend env rt state? message).runtime = rt ∧
        (master_chat prompt backend env rt state? message).outcome =
          (master_chat prompt backend env2 rt2 state? message).outcome) := by
  have hsc : ∀ (msgs : List Message) (c : String),
      should_continue (msgs ++ [Message.ai c []]) = Except.ok Route.END := by
    intro msgs c
    simp [should_continue, lastMessage, List.getLast?_concat, Message.tool_calls]
    rfl
  refine ⟨?_, ?_, ?_⟩
  · intro state? c hresp
    refine ⟨hsc _ c, ?_⟩
    have hmain : ∀ (exec : ToolExec) (fuel : Nat),
        (todo_chat prompt backend exec (fuel + 1) state? message).2 =
          Except.ok (c, { todo_pre_state state? message with
            messages := (todo_pre_state state? message).messages ++ [Message.ai c []] }) := by
      intro exec fuel
      have hrun : runGraph todoToolsTarget (todo_call_model prompt backend) exec (fuel + 1)
          (GNode.agent, (todo_pre_state state? message).messages) =
          some ((todo_pre_state state? message).messages ++ [Message.ai c []]) := by
        have h1 : runGraph todoToolsTarget (todo_call_model prompt backend) exec (fuel + 1)
            (GNode.agent, (todo_pre_state state? message).messages) =
            runGraph todoToolsTarget (todo_call_model prompt backend) exec fuel
              (graphStep todoToolsTarget (todo_call_model prompt backend) exec
                (GNode.agent, (todo_pre_state state? message).messages)) := rfl
        rw [h1]
        simp [graphStep, todo_call_model, hresp, runGraph]
      simp [todo_chat, hrun, last_content, lastMessage, List.getLast?_concat, Message.content]
    exact fun exec exec2 fuel => ⟨hmain exec fuel, (hmain exec fuel).trans (hmain exec2 fuel).symm⟩
  · intro state? c hresp
    refine ⟨hsc _ c, ?_⟩
    have hmain : ∀ (exec : ToolExec) (fuel : Nat),
        (gmail_chat prompt backend exec (fuel + 1) state? message).2 =
          Except.ok (c, { gmail_pre_state state? message with
            messages := (gmail_pre_state state? message).messages ++ [Message.ai c []] }) := by
      intro exec fuel
      have hrun : runGraph gmailToolsTarget
          (gmail_call_model prompt backend (gmail_pre_state state? message)) exec (fuel + 1)
          (GNode.agent, (gmail_pre_state state? message).messages) =
          some ((gmail_pre_state state? message).messages ++ [Message.ai c []]) := by
        have h1 : runGraph gmailToolsTarget
            (gmail_call_model prompt backend (gmail_pre_state state? message)) exec (fuel + 1)
            (GNode.agent, (gmail_pre_state state? message).messages) =
            runGraph gmailToolsTarget
              (gmail_call_model prompt backend (gmail_pre_state state? message)) exec fuel
              (graphStep gmailToolsTarget
                (gmail_call_model prompt backend (gmail_pre_state state? message)) exec
                (GNode.agent, (gmail_pre_state state? message).messages)) := rfl
        rw [h1]
        simp [graphStep, gmail_call_model, hresp, runGraph]
      simp [gmail_chat, hrun, last_content, lastMessage, List.getLast?_concat, Message.content]
    exact fun exec exec2 fuel => ⟨hmain exec fuel, (hmain exec fuel).trans (hmain exec2 fuel).symm⟩
  · intro state? c hresp
    refine ⟨hsc _ c, ?_⟩
    have hmain : ∀ (env : MasterEnv) (rt : MasterRuntime),
        (master_chat prompt backend env rt state? message).outcome =
          Except.ok (c, { master_pre_state state? message with
            messages := (master_pre_state state? message).messages ++ [Message.ai c []] }) ∧
        (master_chat prompt backend env rt state? message).runtime = rt := by
      intro env rt
      constructor
      · simp [master_chat, master_graph_invoke, hresp, master_updated_context, last_content,
          lastMessage, List.getLast?_concat, Message.content]
      · simp [master_chat, master_graph_invoke, hresp]
    exact fun env env2 rt rt2 => ⟨(hmain env rt).1, (hmain env rt).2,
      ((hmain env rt).1).trans ((hmain env2 rt2).1).symm⟩

/-- Concrete instance of the C4 theorem: with a backend that requests no
tools, the Todo agent's chat returns the reply text directly and the master's
chat leaves the runtime untouched. -/
theorem c4_zero_tool_calls_ends_witness :
    (todo_chat "p" backendPlain (fun _ => "unused") 1 none "hi").2 =
      Except.ok ("hello", { todo_pre_state none "hi" with
        messages := (todo_pre_state none "hi").messages ++ [Message.ai "hello" []] }) ∧
    (master_chat "p" backendPlain masterEnvNone masterRuntimeEmpty none "hi").runtime =
      masterRuntimeEmpty := by
  constructor
  · exact (((c4_zero_tool_calls_ends "p" "hi" backendPlain).1 none "hello" rfl).2
      (fun _ => "unused") (fun _ => "unused") 0).1
  · exact (((c4_zero_tool_calls_ends "p" "hi" backendPlain).2.2 none "hello" rfl).2
      masterEnvNone masterEnvNone masterRuntimeEmpty masterRuntimeEmpty).2.1

/-- C2: when the master's reasoning backend requests exactly one sub-agent
tool and that sub-agent's `chat` returns an answer, the string returned by
`MasterAgent.chat` is that answer byte-for-byte: the tools node is wired to
END, so the sub-agent's text becomes the final tool message and is extracted
unchanged, with no further reasoning pass to paraphrase it. -/
theorem c2_delegation_verbatim (prompt message : String) (backend : Backend)
    (state? : Option MasterAgentState) (env : MasterEnv) (rt : MasterRuntime)
    (c : String) (tc : ToolCall)
    (hresp : backend (Message.system (master_system_content prompt
        (master_pre_state state? message)) :: (master_pre_state state? message).messages) =
      { content := c, tool_calls := [tc] }) :
    (∀ h ur ans st2, tc.name = "todo_agent" → tc.args = [("user_request", JVal.str ur)] →
      env.todoAgent = some h → h.chatFn ur rt.todo_current = Except.ok (ans, st2) →
      Except.map Prod.fst (master_chat prompt backend env rt state? message).outcome =
        Except.ok ans) ∧
    (∀ h ur ans st2, tc.name = "gmail_agent" → tc.args = [("user_request", JVal.str ur)] →
      env.gmailAgent = some h → h.chatFn ur rt.gmail_current = Except.ok (ans, st2) →
      Except.map Prod.fst (master_chat prompt backend env rt state? message).outcome =
        Except.ok ans) := by
  constructor
  · intro h ur ans st2 hname hargs hsome hok
    simp [master_chat, master_graph_invoke, hresp, master_tool_node, master_exec_tool,
      hname, tool_call_request, hargs, todo_agent_tool, hsome, hok, last_content,
      lastMessage, List.getLast?_concat, Message.content, Except.map]
  · intro h ur ans st2 hname hargs hsome hok
    simp [master_chat, master_graph_invoke, hresp, master_tool_node, master_exec_tool,
      hname, tool_call_request, hargs, gmail_agent_tool, hsome, hok, last_content,
      lastMessage, List.getLast?_concat, Message.content, Except.map]

/-- Concrete instance of the C2 theorem: with a delegating backend and a
sub-agent answering `"done"`, the master's chat outcome carries exactly
`"done"`. -/
theorem c2_delegation_verbatim_witness :
    Except.map Prod.fst (master_chat "p" backendDelegatesTodo masterEnvOk masterRuntimeEmpty
      none "show tasks").outcome = Except.ok "done" := by
  exact (c2_delegation_verbatim "p" "show tasks" backendDelegatesTodo none masterEnvOk
      masterRuntimeEmpty ""
      { id := "1", name := "todo_agent", args := [("user_request", JVal.str "show tasks")] }
      rfl).1
    { chatFn := fun _ _ => Except.ok ("done", todo_default_state) }
    "show tasks" "done" todo_default_state rfl rfl rfl rfl

/-- C1 as stated is false for the Master agent: its compiled graph wires the
`tools` node to END (main_agent.py line 260), so after the tool results are
appended the state machine reaches END — it does not transition back to the
`agent` (Reasoning) node.  Concrete run shown at an explicit state. -/
theorem c1_master_tools_to_end_counterexample :
    (graphStep masterToolsTarget (fun _ => { content := "", tool_calls := [] })
        (fun _ => "tool result")
        (GNode.tools,
          [Message.human "remind me",
           Message.ai "" [{ id := "1", name := "todo_agent",
                            args := [("user_request", JVal.str "remind me")] }]])).1 =
      GNode.done ∧
    GNode.done ≠ GNode.agent :=
  ⟨rfl, by decide⟩

/-- C1 amended: after all requested calls of a round are resolved and their
results appended, the Gmail and Todo agents' graphs transition back to the
`agent` (Reasoning) node — whose next step invokes the reasoning backend on
exactly the extended history — while the Master agent's graph transitions
from `tools` to END, producing the round's answer without re-invoking the
backend. -/
theorem c1_tools_transition_amended (llm : NodeLlm) (exec : ToolExec) (msgs : List Message) :
    graphStep gmailToolsTarget llm exec (GNode.tools, msgs) =
      (GNode.agent, msgs ++ execToolCalls exec (pendingToolCalls msgs)) ∧
    graphStep todoToolsTarget llm exec (GNode.tools, msgs) =
      (GNode.agent, msgs ++ execToolCalls exec (pendingToolCalls msgs)) ∧
    graphStep masterToolsTarget llm exec (GNode.tools, msgs) =
      (GNode.done, msgs ++ execToolCalls exec (pendingToolCalls msgs)) ∧
    ∀ tgt, (graphStep tgt llm exec (GNode.agent, msgs)).2 =
      msgs ++ [Message.ai (llm msgs).content (llm msgs).tool_calls] := by
  exact ⟨rfl, rfl, rfl, fun tgt => rfl⟩

/-! ## C7: rendering of `list_messages` -/

lemma strField_value (fields : List (String × JVal)) (k s0 : String)
    (h : strFieldOrAbsent fields k = true) :
    ∃ s, jGetD (JVal.obj fields) k (JVal.str s0) = Except.ok (JVal.str s) := by
  unfold strFieldOrAbsent at h
  cases hf : (fields.find? (fun p => p.1 == k)).map Prod.snd with
  | none => exact ⟨s0, by simp [jGetD, hf]⟩
  | some v =>
      rw [hf] at h
      cases v with
      | str s => exact ⟨s, by simp [jGetD, hf]⟩
      | num n => simp at h
      | bool b => simp at h
      | null => simp at h
      | arr xs => simp at h
      | obj fs => simp at h

lemma strListField_value (fields : List (String × JVal))
    (h : strListFieldOrAbsent fields "labelIds" = true) :
    ∃ xs, jGetD (JVal.obj fields) "labelIds" (JVal.arr []) = Except.ok (JVal.arr xs) ∧
      xs.all isStrB = true := by
  unfold strListFieldOrAbsent at h
  cases hf : (fields.find? (fun p => p.1 == "labelIds")).map Prod.snd with
  | none => exact ⟨[], by simp [jGetD, hf], rfl⟩
  | some v =>
      rw [hf] at h
      cases v with
      | arr xs => exact ⟨xs, by simp [jGetD, hf], h⟩
      | str s => simp at h
      | num n => simp at h
      | bool b => simp at h
      | null => simp at h
      | obj fs => simp at h

lemma pyJoinStrs_all_str (xs : List JVal) (h : xs.all isStrB = true) :
    ∃ l : List String, pyJoinStrs xs = Except.ok l := by
  induction xs with
  | nil => exact ⟨[], rfl⟩
  | cons x rest ih =>
      simp only [List.all_cons, Bool.and_eq_true] at h
      obtain ⟨l, hl⟩ := ih h.2
      cases x with
      | str s => exact ⟨s :: l, by simp [pyJoinStrs, hl]⟩
      | num n => simp [isStrB] at h
      | bool b => simp [isStrB] at h
      | null => simp [isStrB] at h
      | arr ys => simp [isStrB] at h
      | obj fs => simp [isStrB] at h

lemma list_messages_entry_wf (i : Nat) (m : JVal) (h : msgWF m = true) :
    ∃ a b c d e, list_messages_entry i m =
      Except.ok (list_messages_entry_template i a b c d e) := by
  cases m with
  | str s => simp [msgWF] at h
  | num n => simp [msgWF] at h
  | bool b => simp [msgWF] at h
  | null => simp [msgWF] at h
  | arr xs => simp [msgWF] at h
  | obj fields =>
      simp only [msgWF, Bool.and_eq_true] at h
      obtain ⟨⟨⟨hfrom, hsubj⟩, hdate⟩, hlab⟩ := h
      obtain ⟨sf, hsf⟩ := strField_value fields "from" "Unknown" hfrom
      obtain ⟨ss, hss⟩ := strField_value fields "subject" "No Subject" hsubj
      obtain ⟨sd, hsd⟩ := strField_value fields "date" "Unknown" hdate
      obtain ⟨xs, hxs, hall⟩ := strListField_value fields hlab
      have hall3 : (xs.take 3).all isStrB = true := by
        rw [List.all_eq_true] at hall ⊢
        exact fun x hx => hall x (List.take_subset _ _ hx)
      obtain ⟨l, hml⟩ := pyJoinStrs_all_str (xs.take 3) hall3
      simp only [jGetD, Except.ok.injEq] at hsf hss hsd hxs
      refine ⟨sf.take 30, ss.take 50, sd.take 20, String.intercalate ", " l,
        pyStr (((fields.find? (fun p => p.1 == "id")).map Prod.snd).getD (JVal.str "Unknown")),
        ?_⟩
      simp [list_messages_entry, jGetD, hsf, hss, hsd, hxs, jSliceTo, pyJoin, jElems, hml,
        pyStr, list_messages_entry_template, Bind.bind, Except.bind, Pure.pure, Except.pure]

lemma foldlM_entries (msgs : List JVal) (hwf : ∀ m ∈ msgs, msgWF m = true) :
    ∀ (k : Nat) (acc : String),
      ∃ entries : List String,
        ((msgs.enumFrom k).foldlM
          (fun output p => do
            let e ← list_messages_entry p.1 p.2
            return output ++ e) acc : Py String) = Except.ok (acc ++ concatStrings entries) ∧
        entries.length = msgs.length ∧
        ∀ j (hj : j < entries.length),
          ∃ a b c d e, entries.get ⟨j, hj⟩ = list_messages_entry_template (k + j) a b c d e := by
  induction msgs with
  | nil =>
      intro k acc
      refine ⟨[], ?_, rfl, ?_⟩
      · show (pure acc : Py String) = Except.ok (acc ++ concatStrings [])
        have h0 : acc ++ concatStrings [] = acc := by
          show acc ++ "" = acc
          simp
        rw [h0]
        rfl
      · intro j hj
        simp at hj
  | cons m rest ih =>
      intro k acc
      have hm := hwf m (List.mem_cons_self m rest)
      have hrest : ∀ x ∈ rest, msgWF x = true := fun x hx => hwf x (List.mem_cons_of_mem m hx)
      obtain ⟨a, b, c, d, e, hent⟩ := list_messages_entry_wf k m hm
      obtain ⟨entries, hfold, hlen, hidx⟩ :=
        ih hrest (k + 1) (acc ++ list_messages_entry_template k a b c d e)
      refine ⟨list_messages_entry_template k a b c d e :: entries, ?_, by simp [hlen], ?_⟩
      · have hstep : (List.enumFrom k (m :: rest)) = (k, m) :: List.enumFrom (k + 1) rest := rfl
        rw [hstep, List.foldlM_cons]
        simp only [hent]
        have hconcat : acc ++ concatStrings (list_messages_entry_template k a b c d e :: entries)
            = (acc ++ list_messages_entry_template k a b c d e) ++ concatStrings entries := by
          show acc ++ (list_messages_entry_template k a b c d e ++ concatStrings entries)
            = (acc ++ list_messages_entry_template k a b c d e) ++ concatStrings entries
          rw [String.append_assoc]
        rw [hconcat]
        simpa using hfold
      · intro j hj
        cases j with
        | zero => exact ⟨a, b, c, d, e, by simp⟩
        | succ j2 =>
            have hj2 : j2 < entries.length := by simpa using hj
            obtain ⟨a2, b2, c2, d2, e2, h2⟩ := hidx j2 hj2
            refine ⟨a2, b2, c2, d2, e2, ?_⟩
            rw [show k + 1 + j2 = k + (j2 + 1) from by omega] at h2
            simpa using h2

/-- C7: for every endpoint reply carrying a non-empty list of N well-formed
messages (and no error), the `list_messages` adapter's rendered output is the
count header `Found N messages…` followed by exactly N numbered entries, each
populated with From, Subject, Date, Labels and ID fields. -/
theorem c7_list_messages_count_and_entries (d : JsonDict) (q : String) (msgs : List JVal)
    (herr : dictLookup d "error" = none)
    (hmsgs : dictLookup d "messages" = some (JVal.arr msgs))
    (hne : msgs ≠ [])
    (hwf : ∀ m ∈ msgs, msgWF m = true) :
    ∃ entries : List String,
      list_messages_render q d =
        Except.ok (("Found " ++ toString msgs.length ++ " messages" ++
          (if q != "" then " for query: " ++ q else "") ++ ":\n\n") ++
          concatStrings entries) ∧
      entries.length = msgs.length ∧
      ∀ j (hj : j < entries.length),
        ∃ a b c dd e, entries.get ⟨j, hj⟩ =
          list_messages_entry_template (j + 1) a b c dd e := by
  obtain ⟨entries, hfold, hlen, hidx⟩ := foldlM_entries msgs hwf 1
    ("Found " ++ toString msgs.length ++ " messages" ++
      (if q != "" then " for query: " ++ q else "") ++ ":\n\n")
  refine ⟨entries, ?_, hlen, ?_⟩
  · have hget : dictGetD d "messages" (JVal.arr []) = JVal.arr msgs := by
      simp [dictGetD, hmsgs]
    have htr : pyTruthy (JVal.arr msgs) = true := by
      simp [pyTruthy, hne]
    simp only [list_messages_render, herr, hget, htr, Bool.not_true, Bool.false_eq_true,
      if_false, pyLen, jElems]
    simpa using hfold
  · intro j hj
    obtain ⟨a, b, c, dd, e, h2⟩ := hidx j hj
    rw [Nat.add_comm 1 j] at h2
    exact ⟨a, b, c, dd, e, h2⟩

/-- Concrete instance of the C7 theorem: the two-message reply renders with
the `Found 2 messages` header and exactly two numbered entries. -/
theorem c7_list_messages_count_and_entries_witness :
    ∃ entries : List String,
      list_messages_render "" gmailListReply =
        Except.ok ("Found 2 messages:\n\n" ++ concatStrings entries) ∧
      entries.length = 2 ∧
      ∀ j (hj : j < entries.length),
        ∃ a b c dd e, entries.get ⟨j, hj⟩ =
          list_messages_entry_template (j + 1) a b c dd e := by
  have h := c7_list_messages_count_and_entries gmailListReply "" [gmailMsgOne, gmailMsgTwo]
    rfl rfl (by simp)
    (by
      intro m hm
      simp only [List.mem_cons, List.mem_singleton] at hm
      rcases hm with rfl | rfl | h2
      · rfl
      · rfl
      · simp at h2)
  exact h

end NexZen
